import Mathlib

/-!
Shallow embedding of `src/editor/src/messages/tool/common_functionality/pivot.rs`
(the `Pivot` controller of the Graphite editor) together with the external
interfaces it consumes, and proofs of the specification claims about it.

Machine floating point (`f64`) is idealised as `ℚ`; the one place where the
distinction matters (IEEE division by zero producing a non-finite value in the
multi-layer normalized-pivot computation) is modelled separately by `ff_div`,
which returns `none` for a non-finite result.
-/

namespace Graphite

/-- Embedding of `glam::DVec2` (a 2D vector of `f64`), with `f64` idealised as `ℚ`. -/
structure DVec2 where
  x : ℚ
  y : ℚ
deriving DecidableEq

/-- `DVec2::splat(v)`. -/
def DVec2.splat (v : ℚ) : DVec2 := ⟨v, v⟩

/-- `DVec2::ZERO`. -/
def DVec2.zero : DVec2 := ⟨0, 0⟩

/-- `DVec2::ONE`. -/
def DVec2.one : DVec2 := ⟨1, 1⟩

instance : Add DVec2 := ⟨fun a b => ⟨a.x + b.x, a.y + b.y⟩⟩

instance : Sub DVec2 := ⟨fun a b => ⟨a.x - b.x, a.y - b.y⟩⟩

instance : Mul DVec2 := ⟨fun a b => ⟨a.x * b.x, a.y * b.y⟩⟩

instance : Div DVec2 := ⟨fun a b => ⟨a.x / b.x, a.y / b.y⟩⟩

instance : Neg DVec2 := ⟨fun a => ⟨-a.x, -a.y⟩⟩

/-- Division of a vector by a scalar, as in `xy_summation / selected_layers_count as f64`. -/
def DVec2.div_scalar (a : DVec2) (s : ℚ) : DVec2 := ⟨a.x / s, a.y / s⟩

/-- `DVec2::distance_squared`. -/
def DVec2.distance_squared (a b : DVec2) : ℚ := (a.x - b.x) ^ 2 + (a.y - b.y) ^ 2

theorem DVec2.add_def (a b : DVec2) : a + b = ⟨a.x + b.x, a.y + b.y⟩ := rfl

theorem DVec2.sub_def (a b : DVec2) : a - b = ⟨a.x - b.x, a.y - b.y⟩ := rfl

theorem DVec2.mul_def (a b : DVec2) : a * b = ⟨a.x * b.x, a.y * b.y⟩ := rfl

theorem DVec2.div_def (a b : DVec2) : a / b = ⟨a.x / b.x, a.y / b.y⟩ := rfl

/-- Embedding of `glam::DMat2`: a 2×2 matrix of `f64` stored as two column vectors. -/
structure DMat2 where
  x_axis : DVec2
  y_axis : DVec2
deriving DecidableEq

/-- `DMat2::IDENTITY`. -/
def DMat2.identity : DMat2 := ⟨⟨1, 0⟩, ⟨0, 1⟩⟩

/-- `DMat2::determinant`. -/
def DMat2.det (m : DMat2) : ℚ := m.x_axis.x * m.y_axis.y - m.x_axis.y * m.y_axis.x

/-- `DMat2::mul_vec2` (matrix–vector product, columns times components). -/
def DMat2.mul_vec2 (m : DMat2) (v : DVec2) : DVec2 :=
  ⟨m.x_axis.x * v.x + m.y_axis.x * v.y, m.x_axis.y * v.x + m.y_axis.y * v.y⟩

/-- `DMat2::mul` (matrix–matrix product). -/
def DMat2.mul (m n : DMat2) : DMat2 := ⟨m.mul_vec2 n.x_axis, m.mul_vec2 n.y_axis⟩

/-- `DMat2::inverse` (the adjugate divided by the determinant, as in glam). -/
def DMat2.inverse (m : DMat2) : DMat2 :=
  let inv_det := 1 / m.det
  ⟨⟨m.y_axis.y * inv_det, -m.x_axis.y * inv_det⟩, ⟨-m.y_axis.x * inv_det, m.x_axis.x * inv_det⟩⟩

/-- Embedding of `glam::DAffine2`: a 2×2 linear part plus a translation. -/
structure DAffine2 where
  matrix2 : DMat2
  translation : DVec2
deriving DecidableEq

/-- `DAffine2::IDENTITY`, which is also `DAffine2::default()`. -/
def DAffine2.identity : DAffine2 := ⟨DMat2.identity, DVec2.zero⟩

/-- `DAffine2::from_translation`. -/
def DAffine2.from_translation (t : DVec2) : DAffine2 := ⟨DMat2.identity, t⟩

/-- `DAffine2::from_scale`. -/
def DAffine2.from_scale (s : DVec2) : DAffine2 := ⟨⟨⟨s.x, 0⟩, ⟨0, s.y⟩⟩, DVec2.zero⟩

/-- `DAffine2::transform_point2`: apply the linear part, then translate. -/
def DAffine2.transform_point2 (a : DAffine2) (p : DVec2) : DVec2 :=
  a.matrix2.mul_vec2 p + a.translation

/-- `DAffine2` multiplication (composition; `self` is applied after `rhs`, as in glam). -/
def DAffine2.mul (a b : DAffine2) : DAffine2 :=
  ⟨a.matrix2.mul b.matrix2, a.matrix2.mul_vec2 b.translation + a.translation⟩

/-- `DAffine2::inverse`. -/
def DAffine2.inverse (a : DAffine2) : DAffine2 :=
  let m := a.matrix2.inverse
  ⟨m, -(m.mul_vec2 a.translation)⟩

/-- `f64::EPSILON` = 2⁻⁵², exact as a rational. -/
def EPSILON : ℚ := 1 / 2 ^ 52

/-- Modelled from the spec: the pivot-handle diameter constant `PIVOT_DIAMETER`
from `crate::consts`, which is not under `src/`; the editor uses 5 viewport units. -/
def PIVOT_DIAMETER : ℚ := 5

/-- Modelled from the spec: the named-anchor-or-custom enum
`graphene_std::transform::ReferencePoint` (not under `src/`): the nine standard
named positions — corners, edge midpoints, center — plus a custom marker. -/
inductive ReferencePoint where
  | topLeft | topCenter | topRight
  | centerLeft | center | centerRight
  | bottomLeft | bottomCenter | bottomRight
  | custom
deriving DecidableEq

/-- Modelled from the spec: the tolerance within which a normalized coordinate
matches one of the canonical values 0, ½, 1 when discretizing to a `ReferencePoint`. -/
def ANCHOR_TOLERANCE : ℚ := 1 / 100000

/-- Position of one normalized coordinate on the three-value anchor grid. -/
inductive AxisPos where
  | lo | mid | hi
deriving DecidableEq

/-- Modelled from the spec: classify one normalized coordinate as left/top (0),
center (½), right/bottom (1), or no match, within `ANCHOR_TOLERANCE`. -/
def classify_axis (v : ℚ) : Option AxisPos :=
  if |v - 0| ≤ ANCHOR_TOLERANCE then some .lo
  else if |v - 1/2| ≤ ANCHOR_TOLERANCE then some .mid
  else if |v - 1| ≤ ANCHOR_TOLERANCE then some .hi
  else none

/-- Combine the two classified axes into a named anchor, or the custom marker
when either axis matches no canonical value. -/
def ref_of_axes : Option AxisPos → Option AxisPos → ReferencePoint
  | some .lo, some .lo => .topLeft
  | some .mid, some .lo => .topCenter
  | some .hi, some .lo => .topRight
  | some .lo, some .mid => .centerLeft
  | some .mid, some .mid => .center
  | some .hi, some .mid => .centerRight
  | some .lo, some .hi => .bottomLeft
  | some .mid, some .hi => .bottomCenter
  | some .hi, some .hi => .bottomRight
  | _, _ => .custom

/-- Modelled from the spec: the `From<DVec2> for ReferencePoint` conversion
(not under `src/`) — the nearest of the nine standard named positions, or the
custom marker when the point matches none within tolerance. -/
def DVec2.to_reference_point (v : DVec2) : ReferencePoint :=
  ref_of_axes (classify_axis v.x) (classify_axis v.y)

/-- Layer identifiers (`LayerNodeIdentifier`), abstracted as naturals. -/
abbrev Layer : Type := ℕ

/-- Modelled from the spec: the scene/document collaborator consumed by the
controller (`DocumentMessageHandler`, its metadata and network interface are not
under `src/`). It provides, per §6 of the spec: the selected visible unlocked
layers in iteration order, each layer's bounding box in local space, each
layer's transform to viewport space, each layer's optional authored pivot, and
the viewport-space bounding box of the whole selection. -/
structure Document where
  selected_layers : List Layer
  nonzero_bounding_box : Layer → DVec2 × DVec2
  transform_to_viewport : Layer → DAffine2
  get_pivot : Layer → Option DVec2
  selection_bounding_box_viewport : Option (DVec2 × DVec2)

/-- `Pivot::get_layer_pivot_transform`: the transform from normalized pivot space
to viewspace — translate by the box minimum, scale by (max − min), then the
layer's transform to viewport. -/
def get_layer_pivot_transform (d : Document) (layer : Layer) : DAffine2 :=
  let bb := d.nonzero_bounding_box layer
  let bounds_transform := (DAffine2.from_translation bb.1).mul (DAffine2.from_scale (bb.2 - bb.1))
  let layer_transform := d.transform_to_viewport layer
  layer_transform.mul bounds_transform

/-- Modelled from the spec: `graph_modification_utils::get_viewport_pivot` (not
under `src/`) — each layer's own viewport-space pivot point, via the same
per-layer logic as the single-layer case but keeping only the resulting point. -/
def get_viewport_pivot (d : Document) (layer : Layer) : DVec2 :=
  (get_layer_pivot_transform d layer).transform_point2
    ((d.get_pivot layer).getD (DVec2.splat (1/2)))

/-- The `Pivot` controller state (`struct Pivot` in `pivot.rs`). -/
structure Pivot where
  normalized_pivot : DVec2
  transform_from_normalized : DAffine2
  pivot : Option DVec2
  old_pivot_position : ReferencePoint
  active : Bool
deriving DecidableEq

/-- `Pivot::default()`. -/
def Pivot.default : Pivot :=
  { normalized_pivot := DVec2.splat (1/2)
    transform_from_normalized := DAffine2.identity
    pivot := none
    old_pivot_position := ReferencePoint.center
    active := true }

/-- `Iterator::reduce(|a, b| a + b).unwrap_or_default()` on the viewport pivots. -/
def reduce_add : List DVec2 → DVec2
  | [] => DVec2.zero
  | p :: ps => ps.foldl (fun a b => a + b) p

/-- `Pivot::recalculate_pivot`. -/
def recalculate_pivot (s : Pivot) (d : Document) : Pivot :=
  if !s.active then s
  else
    match d.selected_layers with
    | [] =>
      { s with normalized_pivot := DVec2.splat (1/2), pivot := none }
    | first :: rest =>
      let selected_layers_count := rest.length + 1
      if selected_layers_count = 1 then
        let normalized_pivot := (d.get_pivot first).getD (DVec2.splat (1/2))
        let t := get_layer_pivot_transform d first
        { s with normalized_pivot := normalized_pivot
                 transform_from_normalized := t
                 pivot := some (t.transform_point2 normalized_pivot) }
      else
        let xy_summation :=
          reduce_add (d.selected_layers.map (fun layer => get_viewport_pivot d layer))
        let pivot := xy_summation.div_scalar (selected_layers_count : ℚ)
        let bb := d.selection_bounding_box_viewport.getD (DVec2.zero, DVec2.one)
        { s with pivot := some pivot
                 normalized_pivot := (pivot - bb.1) / (bb.2 - bb.1)
                 transform_from_normalized :=
                   (DAffine2.from_translation bb.1).mul (DAffine2.from_scale (bb.2 - bb.1)) }

/-- `Pivot::update_pivot`. The external visibility setting and the optional draw
radius are passed in; the overlay side effect is returned as an optional draw
call (center, radius) instead of being performed. -/
def update_pivot (s : Pivot) (d : Document) (visible : Bool) (draw_data : Option ℚ) :
    Pivot × Option (DVec2 × ℚ) :=
  if !visible then ({ s with active := false }, none)
  else
    let s1 := { s with active := true }
    let s2 := recalculate_pivot s1 d
    match s2.pivot, draw_data with
    | some p, some r => (s2, some (p, r))
    | _, _ => (s2, none)

/-- `Pivot::to_pivot_position`. -/
def Pivot.to_pivot_position (s : Pivot) : ReferencePoint :=
  s.normalized_pivot.to_reference_point

/-- `Pivot::should_refresh_pivot_position`: the returned flag paired with the
updated state. -/
def should_refresh_pivot_position (s : Pivot) : Bool × Pivot :=
  if !s.active then (false, s)
  else
    let new := s.to_pivot_position
    (decide (new ≠ s.old_pivot_position), { s with old_pivot_position := new })

/-- The loop body of `Pivot::set_viewport_position`: commands already pushed to
the response queue stay there, and the `return` on a singular transform stops
the iteration, emitting nothing for the remaining layers. -/
def set_viewport_position_loop (d : Document) (position : DVec2) :
    List Layer → List (Layer × DVec2)
  | [] => []
  | layer :: rest =>
    let transform := get_layer_pivot_transform d layer
    if |transform.matrix2.det| ≤ EPSILON then []
    else
      (layer, transform.inverse.transform_point2 position) ::
        set_viewport_position_loop d position rest

/-- `Pivot::set_viewport_position`: the list of `TransformSetPivot` commands
(layer, local-space pivot) added to the response queue. -/
def set_viewport_position (s : Pivot) (position : DVec2) (d : Document) :
    List (Layer × DVec2) :=
  if !s.active then []
  else set_viewport_position_loop d position d.selected_layers

/-- `Pivot::set_normalized_position`. -/
def set_normalized_position (s : Pivot) (position : DVec2) (d : Document) :
    List (Layer × DVec2) :=
  if !s.active then []
  else set_viewport_position s (s.transform_from_normalized.transform_point2 position) d

/-- `Pivot::is_over`. -/
def is_over (s : Pivot) (mouse : DVec2) : Bool :=
  if !s.active then false
  else
    (s.pivot.filter
      (fun pivot => decide (mouse.distance_squared pivot < (PIVOT_DIAMETER / 2) ^ 2))).isSome

/-- IEEE-flavoured division of finite `f64` values: a zero denominator yields a
non-finite result (`±∞` or NaN), modelled as `none`; otherwise the exact
quotient. Used where the `f64`/`ℚ` idealisation matters (claim C6). -/
def ff_div (a b : ℚ) : Option ℚ := if b = 0 then none else some (a / b)

/-- The multi-layer normalized-pivot expression `(pivot - min) / (max - min)` of
`recalculate_pivot`, component-wise, under IEEE division semantics. -/
def normalized_pivot_f64 (pivot bmin bmax : DVec2) : Option ℚ × Option ℚ :=
  (ff_div (pivot.x - bmin.x) (bmax.x - bmin.x), ff_div (pivot.y - bmin.y) (bmax.y - bmin.y))

/-- The viewport-space selection bounding box with the code's fallback to the unit box. -/
def selection_box (d : Document) : DVec2 × DVec2 :=
  d.selection_bounding_box_viewport.getD (DVec2.zero, DVec2.one)

/-- The mean viewport pivot the multi-layer branch of `recalculate_pivot` computes. -/
def multi_pivot (d : Document) : DVec2 :=
  (reduce_add (d.selected_layers.map (fun layer => get_viewport_pivot d layer))).div_scalar
    ((d.selected_layers.length : ℕ) : ℚ)

/-- Whether a layer's bounding-box-to-viewport transform passes the singularity
guard of `set_viewport_position`. -/
def layer_nonsingular (d : Document) (layer : Layer) : Bool :=
  !decide (|(get_layer_pivot_transform d layer).matrix2.det| ≤ EPSILON)

/-- Example document: one selected layer with local bounding box (0,0)–(10,10),
identity viewport transform, and no authored pivot. -/
def doc_single : Document :=
  { selected_layers := [0]
    nonzero_bounding_box := fun _ => (⟨0, 0⟩, ⟨10, 10⟩)
    transform_to_viewport := fun _ => DAffine2.identity
    get_pivot := fun _ => none
    selection_bounding_box_viewport := some (⟨0, 0⟩, ⟨10, 10⟩) }

/-- Example document: like `doc_single` but the layer has authored pivot (¼, ¾). -/
def doc_single_custom : Document :=
  { doc_single with get_pivot := fun _ => some ⟨1/4, 3/4⟩ }

/-- Example document with an empty selection. -/
def doc_empty : Document :=
  { selected_layers := []
    nonzero_bounding_box := fun _ => (⟨0, 0⟩, ⟨1, 1⟩)
    transform_to_viewport := fun _ => DAffine2.identity
    get_pivot := fun _ => none
    selection_bounding_box_viewport := none }

/-- Example document with two selected layers whose viewport pivots are (0,0)
and (10,0): both have authored pivot (0,0); layer 0 occupies (0,0)–(1,1) and
layer 1 occupies (10,0)–(11,1), both with identity viewport transform. -/
def doc_two : Document :=
  { selected_layers := [0, 1]
    nonzero_bounding_box := fun l => if l = 0 then (⟨0, 0⟩, ⟨1, 1⟩) else (⟨10, 0⟩, ⟨11, 1⟩)
    transform_to_viewport := fun _ => DAffine2.identity
    get_pivot := fun _ => some ⟨0, 0⟩
    selection_bounding_box_viewport := some (⟨0, 0⟩, ⟨11, 1⟩) }

/-- Example document where the first selected layer has a non-singular transform
and the second a singular one (its bounding box is a single point, so the scale
part is zero). -/
def doc_singular_second : Document :=
  { selected_layers := [0, 1]
    nonzero_bounding_box := fun l => if l = 0 then (⟨0, 0⟩, ⟨1, 1⟩) else (⟨3, 3⟩, ⟨3, 3⟩)
    transform_to_viewport := fun _ => DAffine2.identity
    get_pivot := fun _ => none
    selection_bounding_box_viewport := some (⟨0, 0⟩, ⟨3, 3⟩) }

/-- Example document with two selected layers whose viewport selection bounding
box has zero width on the x axis. -/
def doc_degenerate : Document :=
  { selected_layers := [0, 1]
    nonzero_bounding_box := fun _ => (⟨0, 0⟩, ⟨0, 5⟩)
    transform_to_viewport := fun _ => DAffine2.identity
    get_pivot := fun _ => some ⟨0, 0⟩
    selection_bounding_box_viewport := some (⟨0, 0⟩, ⟨0, 5⟩) }

theorem DVec2.neg_def (a : DVec2) : -a = ⟨-a.x, -a.y⟩ := rfl

theorem classify_axis_zero : classify_axis (0 : ℚ) = some AxisPos.lo := by
  rw [classify_axis, if_pos (by rw [abs_le]; norm_num [ANCHOR_TOLERANCE])]

theorem classify_axis_half : classify_axis (1/2 : ℚ) = some AxisPos.mid := by
  rw [classify_axis, if_neg (by rw [abs_le]; norm_num [ANCHOR_TOLERANCE]),
    if_pos (by rw [abs_le]; norm_num [ANCHOR_TOLERANCE])]

theorem to_ref_half : DVec2.to_reference_point (DVec2.splat (1/2)) = ReferencePoint.center := by
  rw [DVec2.to_reference_point]
  rw [show (DVec2.splat (1/2)).x = 1/2 from rfl, show (DVec2.splat (1/2)).y = 1/2 from rfl]
  rw [classify_axis_half]
  rfl

theorem to_ref_zero : DVec2.to_reference_point ⟨0, 0⟩ = ReferencePoint.topLeft := by
  rw [DVec2.to_reference_point]
  rw [show (⟨0, 0⟩ : DVec2).x = 0 from rfl, show (⟨0, 0⟩ : DVec2).y = 0 from rfl]
  rw [classify_axis_zero]
  rfl

theorem recalc_inactive (s : Pivot) (d : Document) (ha : s.active = false) :
    recalculate_pivot s d = s := by
  simp [recalculate_pivot, ha]

theorem recalc_empty_eq (s : Pivot) (d : Document) (ha : s.active = true)
    (hl : d.selected_layers = []) :
    recalculate_pivot s d = { s with normalized_pivot := DVec2.splat (1/2), pivot := none } := by
  rw [recalculate_pivot, ha]
  simp only [Bool.not_true, Bool.false_eq_true, if_false, hl]

theorem recalc_single_eq (s : Pivot) (d : Document) (l : Layer) (ha : s.active = true)
    (hl : d.selected_layers = [l]) :
    recalculate_pivot s d =
      { s with
        normalized_pivot := (d.get_pivot l).getD (DVec2.splat (1/2))
        transform_from_normalized := get_layer_pivot_transform d l
        pivot := some ((get_layer_pivot_transform d l).transform_point2
          ((d.get_pivot l).getD (DVec2.splat (1/2)))) } := by
  rw [recalculate_pivot, ha]
  simp only [Bool.not_true, Bool.false_eq_true, if_false, hl, List.length_nil]
  norm_num

theorem recalc_multi_eq (s : Pivot) (d : Document) (l1 l2 : Layer) (rest : List Layer)
    (ha : s.active = true) (hl : d.selected_layers = l1 :: l2 :: rest) :
    recalculate_pivot s d =
      { s with
        pivot := some (multi_pivot d)
        normalized_pivot :=
          (multi_pivot d - (selection_box d).1) / ((selection_box d).2 - (selection_box d).1)
        transform_from_normalized :=
          (DAffine2.from_translation (selection_box d).1).mul
            (DAffine2.from_scale ((selection_box d).2 - (selection_box d).1)) } := by
  rw [recalculate_pivot, ha]
  simp only [Bool.not_true, Bool.false_eq_true, if_false, hl, List.length_cons]
  rw [if_neg (by omega)]
  simp only [multi_pivot, selection_box, hl, List.length_cons]

theorem update_fst_true (s : Pivot) (d : Document) (dd : Option ℚ) :
    (update_pivot s d true dd).1 = recalculate_pivot { s with active := true } d := by
  rw [update_pivot]
  simp only [Bool.not_true, Bool.false_eq_true, if_false]
  cases h : (recalculate_pivot { s with active := true } d).pivot <;> cases dd <;> simp [h]

theorem update_fst_false (s : Pivot) (d : Document) (dd : Option ℚ) :
    (update_pivot s d false dd).1 = { s with active := false } := rfl

theorem recalc_pivot_isSome (s : Pivot) (d : Document) (ha : s.active = true) :
    ((recalculate_pivot s d).pivot).isSome = !d.selected_layers.isEmpty := by
  match hl : d.selected_layers with
  | [] => rw [recalc_empty_eq s d ha hl]; rfl
  | [l] => rw [recalc_single_eq s d l ha hl]; rfl
  | l1 :: l2 :: rest => rw [recalc_multi_eq s d l1 l2 rest ha hl]; rfl

theorem foldl_add_components (ps : List DVec2) (a : DVec2) :
    ps.foldl (fun u v => u + v) a = ⟨a.x + (ps.map DVec2.x).sum, a.y + (ps.map DVec2.y).sum⟩ := by
  induction ps generalizing a with
  | nil => simp
  | cons p ps ih =>
    rw [List.foldl_cons, ih, List.map_cons, List.sum_cons, List.map_cons, List.sum_cons]
    simp only [DVec2.add_def, DVec2.mk.injEq]
    exact ⟨by ring, by ring⟩

theorem reduce_add_components (xs : List DVec2) :
    reduce_add xs = ⟨(xs.map DVec2.x).sum, (xs.map DVec2.y).sum⟩ := by
  match xs with
  | [] => simp [reduce_add, DVec2.zero]
  | p :: ps => simp [reduce_add, foldl_add_components]

theorem translate_scale_transform (bmin w v : DVec2) :
    ((DAffine2.from_translation bmin).mul (DAffine2.from_scale w)).transform_point2 v =
      ⟨w.x * v.x + bmin.x, w.y * v.y + bmin.y⟩ := by
  simp only [DAffine2.mul, DAffine2.from_translation, DAffine2.from_scale, DMat2.mul,
    DMat2.mul_vec2, DMat2.identity, DAffine2.transform_point2, DVec2.add_def, DVec2.zero,
    DVec2.mk.injEq]
  exact ⟨by ring, by ring⟩

theorem ff_div_zero_denom (a : ℚ) : ff_div a 0 = none := by simp [ff_div]

theorem set_viewport_position_loop_eq (d : Document) (position : DVec2) (ls : List Layer) :
    set_viewport_position_loop d position ls =
      (ls.takeWhile (layer_nonsingular d)).map
        (fun layer => (layer, (get_layer_pivot_transform d layer).inverse.transform_point2 position)) := by
  induction ls with
  | nil => rfl
  | cons l rest ih =>
    rw [set_viewport_position_loop]
    by_cases h : |(get_layer_pivot_transform d l).matrix2.det| ≤ EPSILON
    · rw [if_pos h, List.takeWhile_cons]
      have : layer_nonsingular d l = false := by simp [layer_nonsingular, h]
      rw [this]
      rfl
    · rw [if_neg h, List.takeWhile_cons]
      have : layer_nonsingular d l = true := by simp [layer_nonsingular, h]
      rw [this, ih]
      rfl

/-- C1 (amended): `set_viewport_position` on an active controller emits one
`TransformSetPivot` command per selected layer, in iteration order, up to but
not including the first layer whose bounding-box-to-viewport transform has a
determinant of absolute value ≤ machine epsilon; at that layer the loop
early-returns, so that layer and all later ones get no command, but commands
already emitted for earlier layers remain — zero commands are guaranteed only
when the first selected layer is singular. When inactive it emits nothing. -/
theorem c1_set_viewport_position_prefix (s : Pivot) (position : DVec2) (d : Document) :
    set_viewport_position s position d =
      if s.active then
        (d.selected_layers.takeWhile (layer_nonsingular d)).map
          (fun layer => (layer, (get_layer_pivot_transform d layer).inverse.transform_point2 position))
      else [] := by
  cases ha : s.active <;>
    simp [set_viewport_position, ha, set_viewport_position_loop_eq]

/-- C1 counterexample: in `doc_singular_second` the second selected layer is
singular (its bounding-box transform has determinant 0 ≤ ε), yet
`set_viewport_position` emits one command (for the first layer) rather than
zero — the claimed all-or-nothing behaviour fails. -/
theorem c1_counterexample :
    |(get_layer_pivot_transform doc_singular_second 1).matrix2.det| ≤ EPSILON ∧
    set_viewport_position Pivot.default ⟨1, 1⟩ doc_singular_second = [(0, ⟨1, 1⟩)] := by
  constructor
  · norm_num [get_layer_pivot_transform, doc_singular_second, EPSILON,
      DAffine2.mul, DAffine2.from_translation, DAffine2.from_scale, DAffine2.identity,
      DMat2.mul, DMat2.mul_vec2, DMat2.identity, DMat2.det,
      DVec2.sub_def, DVec2.add_def, DVec2.zero]
  · simp only [set_viewport_position, set_viewport_position_loop, Pivot.default,
      doc_singular_second, Bool.not_true, Bool.false_eq_true, if_false]
    norm_num [get_layer_pivot_transform, EPSILON,
      DAffine2.mul, DAffine2.from_translation, DAffine2.from_scale, DAffine2.identity,
      DAffine2.inverse, DMat2.inverse, DMat2.det,
      DMat2.mul, DMat2.mul_vec2, DMat2.identity, DAffine2.transform_point2,
      DVec2.splat, DVec2.add_def, DVec2.sub_def, DVec2.neg_def, DVec2.zero]

/-- C3 (amended): on an *active* controller, `recalculate_pivot` with zero
eligible layers yields `normalized_pivot = (½, ½)` and `pivot = None` whatever
the other prior fields were; on an inactive controller the call is a no-op and
the prior values persist. -/
theorem c3_recalc_no_selection (s : Pivot) (d : Document) (ha : s.active = true)
    (hl : d.selected_layers = []) :
    (recalculate_pivot s d).normalized_pivot = DVec2.splat (1/2) ∧
    (recalculate_pivot s d).pivot = none := by
  rw [recalc_empty_eq s d ha hl]
  exact ⟨rfl, rfl⟩

/-- C3 witness: the amended claim applied to the default controller and an
empty selection. -/
theorem c3_recalc_no_selection_witness :
    Pivot.default.active = true ∧ doc_empty.selected_layers = [] ∧
    (recalculate_pivot Pivot.default doc_empty).normalized_pivot = DVec2.splat (1/2) ∧
    (recalculate_pivot Pivot.default doc_empty).pivot = none :=
  ⟨rfl, rfl, (c3_recalc_no_selection Pivot.default doc_empty rfl rfl).1,
    (c3_recalc_no_selection Pivot.default doc_empty rfl rfl).2⟩

/-- C3 counterexample: for an inactive prior state with
`normalized_pivot = (3/10, 3/10)` and a cached pivot, running `recalc` with an
empty selection leaves both fields unchanged — not `(½, ½)` and not `None` —
so the claim fails for that prior controller state. -/
theorem c3_counterexample :
    doc_empty.selected_layers = [] ∧
    (recalculate_pivot
        { normalized_pivot := ⟨3/10, 3/10⟩, transform_from_normalized := DAffine2.identity,
          pivot := some ⟨1, 1⟩, old_pivot_position := ReferencePoint.center, active := false }
        doc_empty).normalized_pivot ≠ DVec2.splat (1/2) ∧
    (recalculate_pivot
        { normalized_pivot := ⟨3/10, 3/10⟩, transform_from_normalized := DAffine2.identity,
          pivot := some ⟨1, 1⟩, old_pivot_position := ReferencePoint.center, active := false }
        doc_empty).pivot ≠ none := by
  rw [recalc_inactive _ _ rfl]
  refine ⟨rfl, ?_, by simp⟩
  simp only [DVec2.splat, ne_eq, DVec2.mk.injEq]
  norm_num

/-- C9: whenever `active` is false every public operation short-circuits:
`is_over` is false, `should_refresh_pivot_position` is false and leaves the
state untouched, `set_viewport_position` and `set_normalized_position` emit no
commands, and `recalculate_pivot` changes nothing — the state is frozen, not
reset. -/
theorem c9_inactive_frozen (s : Pivot) (d : Document) (position mouse : DVec2)
    (ha : s.active = false) :
    is_over s mouse = false ∧
    should_refresh_pivot_position s = (false, s) ∧
    set_viewport_position s position d = [] ∧
    set_normalized_position s position d = [] ∧
    recalculate_pivot s d = s := by
  refine ⟨?_, ?_, ?_, ?_, recalc_inactive s d ha⟩ <;>
    simp [is_over, should_refresh_pivot_position, set_viewport_position,
      set_normalized_position, ha]

/-- C9 witness: the theorem applied to a concrete frozen inactive state. -/
theorem c9_inactive_frozen_witness :
    is_over { Pivot.default with active := false, pivot := some ⟨7, 7⟩ } ⟨7, 7⟩ = false ∧
    should_refresh_pivot_position { Pivot.default with active := false, pivot := some ⟨7, 7⟩ } =
      (false, { Pivot.default with active := false, pivot := some ⟨7, 7⟩ }) ∧
    set_viewport_position { Pivot.default with active := false, pivot := some ⟨7, 7⟩ } ⟨1, 2⟩
      doc_single = [] ∧
    set_normalized_position { Pivot.default with active := false, pivot := some ⟨7, 7⟩ } ⟨1, 2⟩
      doc_single = [] ∧
    recalculate_pivot { Pivot.default with active := false, pivot := some ⟨7, 7⟩ } doc_single =
      { Pivot.default with active := false, pivot := some ⟨7, 7⟩ } :=
  c9_inactive_frozen _ doc_single ⟨1, 2⟩ ⟨7, 7⟩ rfl

/-- C2 (amended): immediately after an `update_pivot` with the visibility
setting true, the cached `pivot` is `Some` iff at least one visible, unlocked
layer is selected; after an `update_pivot` with visibility false the controller
merely clears `active` and freezes every other field, so a stale `Some` pivot
may persist while `active` is false — the claimed invariant holds only at the
exit of an active update/recalc, not in every reachable state. -/
theorem c2_pivot_some_iff_after_update (s : Pivot) (d : Document) (dd : Option ℚ) :
    (((update_pivot s d true dd).1.pivot).isSome ↔ d.selected_layers ≠ []) ∧
    (update_pivot s d false dd).1 = { s with active := false } := by
  refine ⟨?_, update_fst_false s d dd⟩
  rw [update_fst_true, recalc_pivot_isSome _ _ rfl]
  cases hl : d.selected_layers <;> simp [hl]

/-- C2 witness: the amended claim applied to the one-layer document. -/
theorem c2_pivot_some_iff_after_update_witness :
    ((update_pivot Pivot.default doc_single true none).1.pivot).isSome ∧
    (update_pivot Pivot.default doc_single false none).1 =
      { Pivot.default with active := false } :=
  ⟨(c2_pivot_some_iff_after_update Pivot.default doc_single none).1.mpr (by simp [doc_single]),
    (c2_pivot_some_iff_after_update Pivot.default doc_single none).2⟩

/-- C2 counterexample: run `update` on the default controller with a selected
layer (pivot becomes `Some`), then run `update` with the visibility setting
false. The resulting reachable state has `active = false` while `pivot` is
still `Some`, refuting the claimed iff-invariant over all reachable states. -/
theorem c2_counterexample :
    ((update_pivot (update_pivot Pivot.default doc_single true none).1
        doc_single false none).1.active = false) ∧
    ((update_pivot (update_pivot Pivot.default doc_single true none).1
        doc_single false none).1.pivot).isSome = true := by
  rw [update_fst_false, update_fst_true]
  refine ⟨rfl, ?_⟩
  show ((recalculate_pivot { Pivot.default with active := true } doc_single).pivot).isSome = true
  rw [recalc_single_eq _ doc_single 0 rfl rfl]
  rfl

/-- C4: with exactly one visible, unlocked selected layer L, `recalc` sets
`normalized_pivot` to L's authored pivot (default (½, ½)), sets
`transform_from_normalized` to L's viewport transform composed after the
bounding-box transform (translate by the box minimum, then scale by max − min,
applied first), and sets `pivot` to that transform applied to
`normalized_pivot`. -/
theorem c4_recalc_single_layer (s : Pivot) (d : Document) (l : Layer)
    (ha : s.active = true) (hl : d.selected_layers = [l]) :
    (recalculate_pivot s d).normalized_pivot = (d.get_pivot l).getD (DVec2.splat (1/2)) ∧
    (recalculate_pivot s d).transform_from_normalized =
      (d.transform_to_viewport l).mul
        ((DAffine2.from_translation (d.nonzero_bounding_box l).1).mul
          (DAffine2.from_scale ((d.nonzero_bounding_box l).2 - (d.nonzero_bounding_box l).1))) ∧
    (recalculate_pivot s d).pivot =
      some ((recalculate_pivot s d).transform_from_normalized.transform_point2
        ((recalculate_pivot s d).normalized_pivot)) := by
  rw [recalc_single_eq s d l ha hl]
  exact ⟨rfl, rfl, rfl⟩

/-- C4 witness: the theorem applied to the (0,0)–(10,10) identity-transform
layer, together with the concrete values the claim names: pivot (5,5) with the
default normalized pivot, and pivot (2.5, 7.5) with authored pivot (¼, ¾). -/
theorem c4_recalc_single_layer_witness :
    Pivot.default.active = true ∧ doc_single.selected_layers = [0] ∧
    (recalculate_pivot Pivot.default doc_single).normalized_pivot =
      (doc_single.get_pivot 0).getD (DVec2.splat (1/2)) ∧
    (recalculate_pivot Pivot.default doc_single).pivot = some ⟨5, 5⟩ ∧
    (recalculate_pivot Pivot.default doc_single).normalized_pivot = DVec2.splat (1/2) ∧
    (recalculate_pivot Pivot.default doc_single_custom).pivot = some ⟨5/2, 15/2⟩ := by
  refine ⟨rfl, rfl, (c4_recalc_single_layer Pivot.default doc_single 0 rfl rfl).1, ?_, ?_, ?_⟩ <;>
    · rw [recalc_single_eq _ _ 0 rfl rfl]
      norm_num [doc_single, doc_single_custom, get_layer_pivot_transform,
        DAffine2.mul, DAffine2.from_translation, DAffine2.from_scale, DAffine2.identity,
        DMat2.mul, DMat2.mul_vec2, DMat2.identity, DAffine2.transform_point2,
        DVec2.splat, DVec2.add_def, DVec2.sub_def, DVec2.zero]

/-- C5: with n > 1 visible, unlocked selected layers, `recalc` caches as
`pivot` the unweighted arithmetic mean of the n per-layer viewport-space pivot
points (component-wise sum divided by n). -/
theorem c5_recalc_multi_mean (s : Pivot) (d : Document) (l1 l2 : Layer) (rest : List Layer)
    (ha : s.active = true) (hl : d.selected_layers = l1 :: l2 :: rest) :
    (recalculate_pivot s d).pivot = some
      ⟨((l1 :: l2 :: rest).map (fun l => (get_viewport_pivot d l).x)).sum /
          (((l1 :: l2 :: rest).length : ℕ) : ℚ),
        ((l1 :: l2 :: rest).map (fun l => (get_viewport_pivot d l).y)).sum /
          (((l1 :: l2 :: rest).length : ℕ) : ℚ)⟩ := by
  rw [recalc_multi_eq s d l1 l2 rest ha hl]
  show some (multi_pivot d) = _
  rw [multi_pivot, hl, reduce_add_components]
  simp only [DVec2.div_scalar, List.map_map]
  rfl

/-- C5 witness: the theorem applied to `doc_two`, whose layer viewport pivots
are (0,0) and (10,0); the cached mean pivot is (5,0). -/
theorem c5_recalc_multi_mean_witness :
    Pivot.default.active = true ∧ doc_two.selected_layers = [0, 1] ∧
    (recalculate_pivot Pivot.default doc_two).pivot = some
      ⟨(([0, 1] : List Layer).map (fun l => (get_viewport_pivot doc_two l).x)).sum /
          ((([0, 1] : List Layer).length : ℕ) : ℚ),
        (([0, 1] : List Layer).map (fun l => (get_viewport_pivot doc_two l).y)).sum /
          ((([0, 1] : List Layer).length : ℕ) : ℚ)⟩ ∧
    (recalculate_pivot Pivot.default doc_two).pivot = some ⟨5, 0⟩ := by
  refine ⟨rfl, rfl, c5_recalc_multi_mean Pivot.default doc_two 0 1 [] rfl rfl, ?_⟩
  rw [recalc_multi_eq _ _ 0 1 [] rfl rfl]
  show some (multi_pivot doc_two) = _
  norm_num [multi_pivot, doc_two, reduce_add, DVec2.div_scalar, get_viewport_pivot,
    get_layer_pivot_transform,
    DAffine2.mul, DAffine2.from_translation, DAffine2.from_scale, DAffine2.identity,
    DMat2.mul, DMat2.mul_vec2, DMat2.identity, DAffine2.transform_point2,
    DVec2.splat, DVec2.add_def, DVec2.sub_def, DVec2.zero]

/-- C6: in the multi-layer branch, `normalized_pivot` is computed as
`(pivot − box.min) / (box.max − box.min)` component-wise with no guard; under
the IEEE semantics of `f64` division, a zero-width axis of the selection
bounding box makes the corresponding component non-finite rather than being
special-cased. -/
theorem c6_multi_normalized_division (s : Pivot) (d : Document) (l1 l2 : Layer)
    (rest : List Layer) (ha : s.active = true) (hl : d.selected_layers = l1 :: l2 :: rest) :
    (recalculate_pivot s d).normalized_pivot =
      (multi_pivot d - (selection_box d).1) / ((selection_box d).2 - (selection_box d).1) ∧
    ((selection_box d).2.x = (selection_box d).1.x →
      (normalized_pivot_f64 (multi_pivot d) (selection_box d).1 (selection_box d).2).1 = none) ∧
    ((selection_box d).2.y = (selection_box d).1.y →
      (normalized_pivot_f64 (multi_pivot d) (selection_box d).1 (selection_box d).2).2 = none) := by
  refine ⟨?_, ?_, ?_⟩
  · rw [recalc_multi_eq s d l1 l2 rest ha hl]
  · intro h
    show ff_div ((multi_pivot d).x - (selection_box d).1.x)
      ((selection_box d).2.x - (selection_box d).1.x) = none
    rw [h, sub_self, ff_div_zero_denom]
  · intro h
    show ff_div ((multi_pivot d).y - (selection_box d).1.y)
      ((selection_box d).2.y - (selection_box d).1.y) = none
    rw [h, sub_self, ff_div_zero_denom]

/-- C6 witness: the theorem applied to `doc_degenerate`, whose viewport
selection bounding box (0,0)–(0,5) has zero width on the x axis: the x
component of the IEEE-division normalized pivot is non-finite. -/
theorem c6_multi_normalized_division_witness :
    Pivot.default.active = true ∧ doc_degenerate.selected_layers = [0, 1] ∧
    (selection_box doc_degenerate).2.x = (selection_box doc_degenerate).1.x ∧
    (normalized_pivot_f64 (multi_pivot doc_degenerate) (selection_box doc_degenerate).1
      (selection_box doc_degenerate).2).1 = none ∧
    (recalculate_pivot Pivot.default doc_degenerate).normalized_pivot =
      (multi_pivot doc_degenerate - (selection_box doc_degenerate).1) /
        ((selection_box doc_degenerate).2 - (selection_box doc_degenerate).1) :=
  ⟨rfl, rfl, rfl,
    (c6_multi_normalized_division Pivot.default doc_degenerate 0 1 [] rfl rfl).2.1 rfl,
    (c6_multi_normalized_division Pivot.default doc_degenerate 0 1 [] rfl rfl).1⟩

/-- C7: `is_over` is true exactly when the controller is active, a pivot is
cached, and the squared distance from the mouse to the pivot is strictly less
than the square of half the pivot-handle diameter; in particular a mouse at
squared distance exactly (D/2)² is not over the pivot. -/
theorem c7_is_over_strict (s : Pivot) (mouse : DVec2) :
    (is_over s mouse = true ↔ s.active = true ∧ ∃ p, s.pivot = some p ∧
      mouse.distance_squared p < (PIVOT_DIAMETER / 2) ^ 2) ∧
    (∀ p, s.pivot = some p → mouse.distance_squared p = (PIVOT_DIAMETER / 2) ^ 2 →
      is_over s mouse = false) := by
  constructor
  · rw [is_over]
    cases ha : s.active
    · simp [ha]
    · cases hp : s.pivot <;> simp [Option.filter, hp]
  · intro p hp he
    rw [is_over]
    cases ha : s.active
    · simp
    · simp [Option.filter, hp, he]

/-- C7 witness: with the pivot cached at (100,100), a mouse at distance exactly
`PIVOT_DIAMETER/2` (squared distance (D/2)²) is not over, and a closer mouse at
distance 2 is over. -/
theorem c7_is_over_strict_witness :
    DVec2.distance_squared ⟨100 + 5/2, 100⟩ ⟨100, 100⟩ = (PIVOT_DIAMETER / 2) ^ 2 ∧
    is_over { Pivot.default with pivot := some ⟨100, 100⟩ } ⟨100 + 5/2, 100⟩ = false ∧
    is_over { Pivot.default with pivot := some ⟨100, 100⟩ } ⟨102, 100⟩ = true := by
  have hd : DVec2.distance_squared ⟨100 + 5/2, 100⟩ ⟨100, 100⟩ = (PIVOT_DIAMETER / 2) ^ 2 := by
    rw [DVec2.distance_squared, PIVOT_DIAMETER]
    norm_num
  refine ⟨hd, (c7_is_over_strict _ _).2 ⟨100, 100⟩ rfl hd, ?_⟩
  refine (c7_is_over_strict { Pivot.default with pivot := some ⟨100, 100⟩ } ⟨102, 100⟩).1.mpr
    ⟨rfl, ⟨100, 100⟩, rfl, ?_⟩
  rw [DVec2.distance_squared, PIVOT_DIAMETER]
  norm_num

/-- C8 (amended): on an active controller `should_refresh_pivot_position`
returns whether the discretized anchor of `normalized_pivot` differs from
`old_pivot_position`, and unconditionally stores that anchor into
`old_pivot_position`; consequently the *second* of two consecutive calls with
no intervening change always returns false, while the first returns true only
when the anchor actually differs from the stored one. -/
theorem c8_should_refresh_debounce (s : Pivot) (ha : s.active = true) :
    (should_refresh_pivot_position s).1 = decide (s.to_pivot_position ≠ s.old_pivot_position) ∧
    (should_refresh_pivot_position s).2 =
      { s with old_pivot_position := s.to_pivot_position } ∧
    (should_refresh_pivot_position (should_refresh_pivot_position s).2).1 = false := by
  simp only [should_refresh_pivot_position, ha, Bool.not_true, Bool.false_eq_true, if_false]
  refine ⟨?_, ?_, ?_⟩ <;> simp [Pivot.to_pivot_position]

/-- C8 witness: starting from the default controller moved to normalized pivot
(0,0) (anchor TopLeft, stored anchor still Center), the first call returns true
and the second returns false. -/
theorem c8_should_refresh_debounce_witness :
    ({ Pivot.default with normalized_pivot := (⟨0, 0⟩ : DVec2) } : Pivot).active = true ∧
    (should_refresh_pivot_position
      { Pivot.default with normalized_pivot := ⟨0, 0⟩ }).1 = true ∧
    (should_refresh_pivot_position (should_refresh_pivot_position
      { Pivot.default with normalized_pivot := ⟨0, 0⟩ }).2).1 = false := by
  have h := c8_should_refresh_debounce { Pivot.default with normalized_pivot := ⟨0, 0⟩ } rfl
  refine ⟨rfl, ?_, h.2.2⟩
  rw [h.1]
  rw [show ({ Pivot.default with normalized_pivot := (⟨0, 0⟩ : DVec2) } : Pivot).to_pivot_position
      = ReferencePoint.topLeft from to_ref_zero]
  rfl

/-- C8 counterexample: from the default controller state (anchor already
Center), two consecutive calls return false then false — not true then false
as the claim asserts for every pair of back-to-back calls. -/
theorem c8_counterexample :
    Pivot.default.active = true ∧
    (should_refresh_pivot_position Pivot.default).1 = false ∧
    (should_refresh_pivot_position (should_refresh_pivot_position Pivot.default).2).1 = false := by
  refine ⟨rfl, ?_, ?_⟩ <;>
    · simp only [should_refresh_pivot_position, Pivot.default, Pivot.to_pivot_position,
        Bool.not_true, Bool.false_eq_true, if_false, to_ref_half]
      simp

/-- C10: whenever an active `recalc` leaves a cached pivot p and the governing
selection bounding box is non-degenerate on both axes, the cached fields agree:
p equals `transform_from_normalized` applied to `normalized_pivot`, in both the
single-layer and the multi-layer branch. -/
theorem c10_cached_consistency (s : Pivot) (d : Document) (p : DVec2)
    (ha : s.active = true)
    (hx : (selection_box d).2.x - (selection_box d).1.x ≠ 0)
    (hy : (selection_box d).2.y - (selection_box d).1.y ≠ 0)
    (hp : (recalculate_pivot s d).pivot = some p) :
    (recalculate_pivot s d).transform_from_normalized.transform_point2
      ((recalculate_pivot s d).normalized_pivot) = p := by
  match hl : d.selected_layers with
  | [] =>
    rw [recalc_empty_eq s d ha hl] at hp
    exact absurd hp (by simp)
  | [l] =>
    rw [recalc_single_eq s d l ha hl] at hp ⊢
    simpa using hp
  | l1 :: l2 :: rest =>
    rw [recalc_multi_eq s d l1 l2 rest ha hl] at hp ⊢
    have hpp : multi_pivot d = p := by simpa using hp
    rw [← hpp]
    show ((DAffine2.from_translation (selection_box d).1).mul
      (DAffine2.from_scale ((selection_box d).2 - (selection_box d).1))).transform_point2
      ((multi_pivot d - (selection_box d).1) / ((selection_box d).2 - (selection_box d).1)) =
      multi_pivot d
    rw [translate_scale_transform]
    rw [show multi_pivot d = ⟨(multi_pivot d).x, (multi_pivot d).y⟩ from rfl]
    simp only [DVec2.sub_def, DVec2.div_def, DVec2.mk.injEq]
    constructor
    · field_simp
    · field_simp

/-- C10 witness: the theorem applied to `doc_two` (box (0,0)–(11,1), cached
pivot (5,0)): the cached transform applied to the cached normalized pivot
returns the cached pivot. -/
theorem c10_cached_consistency_witness :
    Pivot.default.active = true ∧
    (selection_box doc_two).2.x - (selection_box doc_two).1.x ≠ 0 ∧
    (selection_box doc_two).2.y - (selection_box doc_two).1.y ≠ 0 ∧
    (recalculate_pivot Pivot.default doc_two).pivot = some (multi_pivot doc_two) ∧
    (recalculate_pivot Pivot.default doc_two).transform_from_normalized.transform_point2
      ((recalculate_pivot Pivot.default doc_two).normalized_pivot) = multi_pivot doc_two := by
  have hx : (selection_box doc_two).2.x - (selection_box doc_two).1.x ≠ 0 := by
    show (11 : ℚ) - 0 ≠ 0
    norm_num
  have hy : (selection_box doc_two).2.y - (selection_box doc_two).1.y ≠ 0 := by
    show (1 : ℚ) - 0 ≠ 0
    norm_num
  have hp : (recalculate_pivot Pivot.default doc_two).pivot = some (multi_pivot doc_two) := by
    rw [recalc_multi_eq Pivot.default doc_two 0 1 [] rfl rfl]
  exact ⟨rfl, hx, hy, hp, c10_cached_consistency Pivot.default doc_two (multi_pivot doc_two)
    rfl hx hy hp⟩

end Graphite
